import Mathlib

/-!
Shallow embedding of `src/email_agent.py`, a small Flask service that
drafts an email with a generative model (`/generate-email`), sends a
confirmed draft through the SendGrid HTTP API (`/confirm-send`), records
sent mails in a SQLite table (`save_to_db`, `/history`), and exposes a
credential liveness check (`/health`).

External collaborators (the HTTP server, the Gemini client, the SendGrid
endpoint, SQLite, and the Python standard library `json` module) are
modelled at their interfaces: the model call and the transport are oracle
parameters, the database is an explicit list of records, and `json.loads`
is a small executable JSON parser covering the fragment exercised here.
-/

/- ===== Python string primitives ===== -/

/-- Characters treated as whitespace by Python `str.strip()`. -/
def pyIsSpace (c : Char) : Bool :=
  c == ' ' || c == '\t' || c == '\n' || c == '\r' || c == '\x0b' || c == '\x0c'

/-- Python `str.strip()` on a character list. -/
def stripL (l : List Char) : List Char :=
  ((l.dropWhile pyIsSpace).reverse.dropWhile pyIsSpace).reverse

/-- Python `str.strip()`. -/
def pyStrip (s : String) : String := String.mk (stripL s.toList)

/-- Python `str.replace(pat, sub)` over character lists, written with a
fuel argument so that it is structurally recursive and reduces in the
kernel. With fuel at least the length of the scanned list it replaces
every non-overlapping occurrence, left to right, exactly as Python does.
The source only ever replaces nonempty patterns by the empty string. -/
def replaceGo (pat sub : List Char) : Nat → List Char → List Char
  | 0, l => l
  | _ + 1, [] => []
  | n + 1, c :: cs =>
    if pat.isPrefixOf (c :: cs) then
      sub ++ replaceGo pat sub n ((c :: cs).drop pat.length)
    else
      c :: replaceGo pat sub n cs

/-- `l.replace(pat, "")` with adequate fuel. -/
def replaceAll (pat : List Char) (l : List Char) : List Char :=
  replaceGo pat [] l.length l

/-- The backtick character (spelled by code point). -/
def backtickChar : Char := '\x60'

/-- The fence marker `"```json"` as a character list. -/
def fenceJsonPat : List Char := "```json".toList

/-- The fence marker `"```"` as a character list. -/
def fencePat : List Char := "```".toList

/-- The cleaning step of `parse_json_response` (email_agent.py lines
49-51): strip the text; if it starts with three backticks, delete every
occurrence of `"```json"`, then every occurrence of `"```"`, and strip
again; otherwise leave it as stripped. -/
def cleanChars (l : List Char) : List Char :=
  let cleaned := stripL l
  if fencePat.isPrefixOf cleaned then
    stripL (replaceAll fencePat (replaceAll fenceJsonPat cleaned))
  else cleaned

/- ===== JSON values and a model of Python json.loads ===== -/

/-- JSON values as produced by `json.loads`. Numbers are modelled as
integers; fractions, exponents and the other corners of the numeric
grammar are not exercised by this development. -/
inductive JsonVal where
  | null
  | bool (b : Bool)
  | num (n : Int)
  | str (s : String)
  | arr (xs : List JsonVal)
  | obj (fields : List (String × JsonVal))

/-- JSON insignificant whitespace. -/
def jsonWs (c : Char) : Bool :=
  c == ' ' || c == '\t' || c == '\n' || c == '\r'

/-- Parse the remainder of a JSON string literal (the opening quote
already consumed), returning its characters and the rest of the input.
Escapes are modelled for the sequences used here. -/
def parseStringChars : List Char → Option (List Char × List Char)
  | [] => none
  | '"' :: rest => some ([], rest)
  | '\\' :: e :: rest =>
    match
      (match e with
        | '"' => some '"'
        | '\\' => some '\\'
        | '/' => some '/'
        | 'n' => some '\n'
        | 't' => some '\t'
        | 'r' => some '\r'
        | _ => none) with
    | none => none
    | some c =>
      match parseStringChars rest with
      | none => none
      | some (s, r) => some (c :: s, r)
  | c :: rest =>
    match parseStringChars rest with
    | none => none
    | some (s, r) => some (c :: s, r)

/-- Digits to a natural number. -/
def digitsToNat (ds : List Char) : Nat :=
  ds.foldl (fun a c => a * 10 + (c.toNat - 48)) 0

/-- Parse a JSON number (integer part only, see `JsonVal`). -/
def parseNumber : List Char → Option (JsonVal × List Char)
  | '-' :: rest =>
    let ds := rest.takeWhile Char.isDigit
    if ds.isEmpty then none
    else some (.num (-(digitsToNat ds : Int)), rest.dropWhile Char.isDigit)
  | l =>
    let ds := l.takeWhile Char.isDigit
    if ds.isEmpty then none
    else some (.num (digitsToNat ds), l.dropWhile Char.isDigit)

/-- Parse the members of a JSON object after its `\x7b`, given a parser
for values; fuel-recursive. -/
def parseMembersWith (pv : List Char → Option (JsonVal × List Char)) :
    Nat → List Char → Option (List (String × JsonVal) × List Char)
  | 0, _ => none
  | m + 1, l =>
    match l.dropWhile jsonWs with
    | '"' :: rest =>
      match parseStringChars rest with
      | none => none
      | some (k, r1) =>
        match r1.dropWhile jsonWs with
        | ':' :: r2 =>
          match pv r2 with
          | none => none
          | some (v, r3) =>
            match r3.dropWhile jsonWs with
            | ',' :: r4 =>
              match parseMembersWith pv m r4 with
              | none => none
              | some (ms, r5) => some ((String.mk k, v) :: ms, r5)
            | '\x7d' :: r4 => some ([(String.mk k, v)], r4)
            | _ => none
        | _ => none
    | _ => none

/-- Parse the items of a JSON array after its `[`, given a parser for
values; fuel-recursive. -/
def parseItemsWith (pv : List Char → Option (JsonVal × List Char)) :
    Nat → List Char → Option (List JsonVal × List Char)
  | 0, _ => none
  | m + 1, l =>
    match pv l with
    | none => none
    | some (v, r1) =>
      match r1.dropWhile jsonWs with
      | ',' :: r2 =>
        match parseItemsWith pv m r2 with
        | none => none
        | some (vs, r3) => some (v :: vs, r3)
      | ']' :: r2 => some ([v], r2)
      | _ => none

/-- Parse one JSON value; fuel bounds the nesting depth. -/
def parseVal : Nat → List Char → Option (JsonVal × List Char)
  | 0, _ => none
  | n + 1, l =>
    match l.dropWhile jsonWs with
    | [] => none
    | c :: rest =>
      if c == '\x7b' then
        match rest.dropWhile jsonWs with
        | '\x7d' :: r1 => some (.obj [], r1)
        | r1 =>
          match parseMembersWith (fun s => parseVal n s) (r1.length + 1) r1 with
          | none => none
          | some (ms, r2) => some (.obj ms, r2)
      else if c == '[' then
        match rest.dropWhile jsonWs with
        | ']' :: r1 => some (.arr [], r1)
        | r1 =>
          match parseItemsWith (fun s => parseVal n s) (r1.length + 1) r1 with
          | none => none
          | some (vs, r2) => some (.arr vs, r2)
      else if c == '"' then
        match parseStringChars rest with
        | none => none
        | some (s, r1) => some (.str (String.mk s), r1)
      else if c == 't' then
        if rest.take 3 == ['r', 'u', 'e'] then some (.bool true, rest.drop 3) else none
      else if c == 'f' then
        if rest.take 4 == ['a', 'l', 's', 'e'] then some (.bool false, rest.drop 4) else none
      else if c == 'n' then
        if rest.take 3 == ['u', 'l', 'l'] then some (.null, rest.drop 3) else none
      else
        parseNumber (c :: rest)

/-- Model of Python `json.loads` on a character list: parse one value and
require only whitespace to remain. `none` models a raised
`json.JSONDecodeError`. -/
def json_loads_chars (l : List Char) : Option JsonVal :=
  match parseVal (l.length + 2) l with
  | none => none
  | some (v, rest) => if (rest.dropWhile jsonWs).isEmpty then some v else none

/-- Model of Python `json.loads` on a string. -/
def json_loads (s : String) : Option JsonVal := json_loads_chars s.toList

/-- `parse_json_response` (email_agent.py lines 48-52): clean the model
reply, then parse it as JSON. `none` models the `json.loads` exception. -/
def parse_json_response (text : String) : Option JsonVal :=
  json_loads_chars (cleanChars text.toList)

/- ===== Environment and Python truthiness ===== -/

/-- The environment variables the service reads. `none` models an unset
variable (`os.getenv` returning `None`). -/
structure Env where
  gemini_api_key : Option String
  sendgrid_api_key : Option String
  mail_from : Option String

/-- Python truthiness of an `os.getenv` result: `None` and the empty
string are falsy, every other string is truthy. -/
def truthy : Option String → Bool
  | none => false
  | some s => !(s == "")

/- ===== Python membership test used by the shape check ===== -/

/-- Boolean contiguous-sublist test, modelling Python substring search. -/
def listInfixB (pat : List Char) : List Char → Bool
  | [] => pat.isEmpty
  | c :: cs => pat.isPrefixOf (c :: cs) || listInfixB pat cs

/-- Python `key in v` for a `json.loads` result: key lookup for a dict,
element equality for a list (a string equals only an equal string),
substring test for a string, and a `TypeError` (modelled as `.error`)
for `None`, booleans and numbers. -/
def py_contains (key : String) : JsonVal → Except String Bool
  | .obj fields => .ok (fields.any (fun p => p.1 == key))
  | .arr xs =>
    .ok (xs.any (fun x => match x with | .str s => s == key | _ => false))
  | .str s => .ok (listInfixB key.toList s.toList)
  | .null => .error "argument of type NoneType is not iterable"
  | .bool _ => .error "argument of type bool is not iterable"
  | .num _ => .error "argument of type int is not iterable"

/-- The condition of email_agent.py line 204,
`"subject" not in email_content or "body" not in email_content`, with
Python short-circuit evaluation; `.error` models a raised `TypeError`. -/
def shape_bad (v : JsonVal) : Except String Bool :=
  match py_contains "subject" v with
  | .error m => .error m
  | .ok false => .ok true
  | .ok true =>
    match py_contains "body" v with
    | .error m => .error m
    | .ok b => .ok (!b)

/- ===== /generate-email (lines 161-210) ===== -/

/-- The form fields of a generate request, as read on lines 167-171. -/
structure GenForm where
  receiver_name : String
  sender_name : String
  mail_body : String
  tone : String
  email_type : String

/-- The JSON response of `/generate-email`: `err msg status` models
`(jsonify(\x7b"error": msg\x7d), status)`; `ok v` models
`(jsonify(v), 200)`. -/
inductive GenResponse where
  | err (msg : String) (status : Nat)
  | ok (content : JsonVal)

/-- Modelled from the spec and the Python standard library: the text of
the `json.JSONDecodeError` raised by `json.loads`. Its exact wording is
produced by the standard library and varies with the input; no claim
depends on it, so it is modelled as one marker string. -/
def json_decode_error_msg : String := "Expecting value"

/-- The `/generate-email` route (email_agent.py lines 161-210).
`model_call` is the outcome of the Gemini call on lines 198-201: `.ok
text` is `response.text`, `.error m` a raised exception with text `m`.
The prompt built on lines 176-196 only feeds that external call and is
not modelled. A `.error` from the model call, from `json.loads` or from
the `in` test is caught by the handler on lines 209-210 and becomes
`(jsonify(\x7b"error": str(e)\x7d), 500)`. -/
def generate_email (gemini_api_key : Option String)
    (model_call : Except String String) (form : GenForm) : GenResponse :=
  if truthy gemini_api_key = false then
    .err "GEMINI_API_KEY not set on server." 500
  else if pyStrip form.receiver_name = "" ∨ pyStrip form.sender_name = "" ∨
      pyStrip form.mail_body = "" ∨ pyStrip form.tone = "" then
    .err "Missing required fields for generation." 400
  else
    match model_call with
    | .error m => .err m 500
    | .ok text =>
      match json_loads_chars (cleanChars text.toList) with
      | none => .err json_decode_error_msg 500
      | some v =>
        match shape_bad v with
        | .error m => .err m 500
        | .ok true => .err "Model returned invalid JSON shape." 500
        | .ok false => .ok v

/- ===== History store (save_to_db, lines 55-63) ===== -/

/-- One row of the `emails` table (schema on lines 29-37). -/
structure HistoryRecord where
  id : Nat
  receiver_email : String
  subject : String
  body : String
  sent_time : String
deriving Repr, DecidableEq

/-- The id SQLite AUTOINCREMENT assigns to the next insert: strictly
greater than every id already in the table. -/
def next_id (store : List HistoryRecord) : Nat :=
  (store.map (fun r => r.id)).foldr max 0 + 1

/-- `save_to_db` (lines 55-63): insert one row; the id is assigned by
the store, the timestamp is the wall clock passed in as `now`. -/
def save_to_db (store : List HistoryRecord)
    (to_email subject body now : String) : List HistoryRecord :=
  store ++ [⟨next_id store, to_email, subject, body, now⟩]

/- ===== Dispatcher (send_email_via_sendgrid, lines 66-139) ===== -/

/-- One `requests.post` call as issued by the dispatcher: the target url
and the `timeout=` argument. -/
structure PostCall where
  url : String
  timeout : Nat
deriving Repr, DecidableEq

/-- The SendGrid send endpoint (lines 98 and 126). -/
def sendgrid_url : String := "https://api.sendgrid.com/v3/mail/send"

/-- The text of the `RuntimeError` raised on lines 111 and 137. `detail`
models `response.json()` when the provider body parses, else
`response.text`; either way it is the provider-supplied detail string. -/
def sendgrid_fail_msg (status : Nat) (detail : String) : String :=
  "SendGrid failed (" ++ toString status ++ "): " ++ detail

/-- The observable outcome of one `send_email_via_sendgrid` call:
`result` is normal return (`.ok`) or a raised exception with text `m`
(`.error m`); `posts` lists the `requests.post` calls issued, in order;
`store` is the `emails` table afterwards. -/
structure SendTrace where
  result : Except String Unit
  posts : List PostCall
  store : List HistoryRecord

/-- `send_email_via_sendgrid` (email_agent.py lines 66-139). The
transport oracle gives the provider response `(status_code, detail)` of
the i-th POST. The attachment argument only augments the JSON payload
(lines 87-95 and 114-123) and touches neither the POSTs issued, the
result, nor the store, so it is not modelled. Note the duplicated block:
after a first accepted POST (202) and a first `save_to_db`, the function
POSTs the same payload a second time and, if that is also accepted,
saves a second time. -/
def send_email_via_sendgrid (env : Env) (transport : Nat → Nat × String)
    (now : String) (store : List HistoryRecord)
    (to_email subject body : String) : SendTrace :=
  if truthy env.sendgrid_api_key = false then
    ⟨.error "SENDGRID_API_KEY is missing in Render Environment Variables.", [], store⟩
  else if truthy env.mail_from = false then
    ⟨.error "MAIL_FROM is missing (must be a verified sender in SendGrid).", [], store⟩
  else
    let r0 := transport 0
    let p0 : PostCall := ⟨sendgrid_url, 30⟩
    if r0.1 ≠ 202 then
      ⟨.error (sendgrid_fail_msg r0.1 r0.2), [p0], store⟩
    else
      let store1 := save_to_db store to_email subject body now
      let r1 := transport 1
      let p1 : PostCall := ⟨sendgrid_url, 30⟩
      if r1.1 ≠ 202 then
        ⟨.error (sendgrid_fail_msg r1.1 r1.2), [p0, p1], store1⟩
      else
        ⟨.ok (), [p0, p1], save_to_db store1 to_email subject body now⟩

/- ===== /confirm-send (lines 213-229) ===== -/

/-- The form fields of a confirm-send request (lines 216-218; the
optional attachment file part is not modelled, see
`send_email_via_sendgrid`). -/
structure SendForm where
  receiver_email : String
  subject : String
  body : String

/-- The JSON response of `/confirm-send`: `clientError msg` models
`(jsonify(\x7b"error": msg\x7d), 400)`, `serverError msg` models
`(jsonify(\x7b"error": msg\x7d), 500)`, and `success` models
`(jsonify(\x7b"message": "Email sent successfully!"\x7d), 200)`. -/
inductive CsResponse where
  | clientError (msg : String)
  | serverError (msg : String)
  | success
deriving Repr, DecidableEq

/-- The observable outcome of one `/confirm-send` request. -/
structure ConfirmResult where
  response : CsResponse
  posts : List PostCall
  store : List HistoryRecord

/-- The `/confirm-send` route (email_agent.py lines 213-229): strip the
three fields, reject if any is empty, otherwise dispatch; any exception
from the dispatcher is caught on lines 227-229 and becomes
`(jsonify(\x7b"error": "Send failed: " + str(e)\x7d), 500)`. -/
def confirm_send (env : Env) (transport : Nat → Nat × String)
    (now : String) (store : List HistoryRecord) (form : SendForm) :
    ConfirmResult :=
  let receiver_email := pyStrip form.receiver_email
  let subject := pyStrip form.subject
  let body := pyStrip form.body
  if receiver_email = "" ∨ subject = "" ∨ body = "" then
    ⟨.clientError "Missing required fields (receiver_email/subject/body).", [], store⟩
  else
    let t := send_email_via_sendgrid env transport now store receiver_email subject body
    match t.result with
    | .ok _ => ⟨.success, t.posts, t.store⟩
    | .error m => ⟨.serverError ("Send failed: " ++ m), t.posts, t.store⟩

/- ===== /health (lines 145-153) ===== -/

/-- The JSON body returned by `/health` (always with status 200). -/
structure HealthResponse where
  ok : Bool
  has_gemini_key : Bool
  has_sendgrid_key : Bool
  has_mail_from : Bool
deriving Repr, DecidableEq

/-- The `/health` route (email_agent.py lines 145-153): reports Python
truthiness of each credential. -/
def health (env : Env) : HealthResponse :=
  ⟨true, truthy env.gemini_api_key, truthy env.sendgrid_api_key,
    truthy env.mail_from⟩

/- ===== /history (lines 232-239) ===== -/

/-- The `/history` route's query `SELECT * FROM emails ORDER BY id DESC`
(line 236): the table rows sorted by id descending. Ids are unique, so
any sorting function models the SQL ordering; insertion sort is used for
its Mathlib lemmas. -/
def history_list_all (store : List HistoryRecord) : List HistoryRecord :=
  List.insertionSort (fun a b => b.id ≤ a.id) store

/- ===== Concrete fixtures for witnesses and counterexamples ===== -/

/-- A fully configured environment. -/
def envAll : Env := ⟨some "gk", some "sgk", some "sender@example.com"⟩

/-- An environment with the SendGrid key unset. -/
def envNoSendgrid : Env := ⟨some "gk", none, some "sender@example.com"⟩

/-- A transport that accepts (202) every POST. -/
def trAccept : Nat → Nat × String := fun _ => (202, "")

/-- A transport that accepts the first POST and rejects the second with
status 500 and a provider detail string. -/
def trSecondFails : Nat → Nat × String :=
  fun i => if i = 0 then (202, "") else (500, "provider detail")

/-- A well-formed confirm-send request. -/
def formOk : SendForm := ⟨"a@b.co", "Hi", "Hello"⟩

/-- A confirm-send request whose recipient address has no `@` at all. -/
def formNoAt : SendForm := ⟨"not-an-address", "Hi", "Hello"⟩

/- ===== Lemmas about the replace primitive ===== -/

theorem replaceGo_eq_nil (pat sub : List Char) (f : Nat) :
    replaceGo pat sub f [] = [] := by
  cases f <;> rfl

theorem replaceGo_fuel (pat sub : List Char) (hp : pat ≠ []) :
    ∀ f1 f2 l, l.length ≤ f1 → l.length ≤ f2 →
      replaceGo pat sub f1 l = replaceGo pat sub f2 l := by
  intro f1
  induction f1 with
  | zero =>
    intro f2 l h1 _
    have hl : l = [] := List.length_eq_zero.mp (Nat.le_zero.mp h1)
    subst hl
    rw [replaceGo_eq_nil, replaceGo_eq_nil]
  | succ n ih =>
    intro f2 l h1 h2
    cases l with
    | nil => rw [replaceGo_eq_nil, replaceGo_eq_nil]
    | cons c cs =>
      cases f2 with
      | zero => exfalso; simp only [List.length_cons] at h2; omega
      | succ m =>
        have hplen : 0 < pat.length := List.length_pos.mpr hp
        simp only [replaceGo]
        by_cases hpre : pat.isPrefixOf (c :: cs) = true
        · rw [if_pos hpre, if_pos hpre]
          congr 1
          apply ih
          · simp only [List.length_drop, List.length_cons]
            simp only [List.length_cons] at h1
            omega
          · simp only [List.length_drop, List.length_cons]
            simp only [List.length_cons] at h2
            omega
        · rw [if_neg hpre, if_neg hpre]
          congr 1
          apply ih
          · simp only [List.length_cons] at h1; omega
          · simp only [List.length_cons] at h2; omega

theorem replaceGo_short (pat sub : List Char) :
    ∀ f l, l.length < pat.length → replaceGo pat sub f l = l := by
  intro f
  induction f with
  | zero => intro l _; rfl
  | succ n ih =>
    intro l hl
    cases l with
    | nil => rfl
    | cons c cs =>
      have hpre : ¬ pat.isPrefixOf (c :: cs) = true := by
        intro h
        have := List.IsPrefix.length_le (List.isPrefixOf_iff_prefix.mp h)
        omega
      simp only [replaceGo]
      rw [if_neg hpre]
      congr 1
      apply ih
      simp only [List.length_cons] at hl
      omega

theorem replaceGo_append_pat (pat sub m : List Char) (f : Nat) (hp : pat ≠ [])
    (hf : (pat ++ m).length ≤ f) :
    replaceGo pat sub f (pat ++ m) = sub ++ replaceGo pat sub (f - 1) m := by
  have hplen : 0 < pat.length := List.length_pos.mpr hp
  cases f with
  | zero =>
    exfalso
    simp only [List.length_append] at hf
    omega
  | succ n =>
    obtain ⟨p, ps, rfl⟩ : ∃ p ps, pat = p :: ps := by
      cases pat with
      | nil => exact absurd rfl hp
      | cons p ps => exact ⟨p, ps, rfl⟩
    have hpre : (p :: ps).isPrefixOf ((p :: ps) ++ m) = true :=
      List.isPrefixOf_iff_prefix.mpr (List.prefix_append _ _)
    simp only [List.cons_append] at hpre ⊢
    simp only [replaceGo]
    rw [if_pos hpre]
    have hdrop : (p :: (ps ++ m)).drop (p :: ps).length = m := by
      rw [← List.cons_append, List.drop_left]
    rw [hdrop]
    simp only [Nat.succ_sub_one]

theorem replaceGo_append_nomatch (p : Char) (ps sub : List Char) :
    ∀ l m f, p ∉ l → (l ++ m).length ≤ f →
      replaceGo (p :: ps) sub f (l ++ m) =
        l ++ replaceGo (p :: ps) sub (f - l.length) m := by
  intro l
  induction l with
  | nil =>
    intro m f _ _
    simp
  | cons c cl ih =>
    intro m f hmem hf
    cases f with
    | zero =>
      exfalso
      simp only [List.length_append, List.length_cons] at hf
      omega
    | succ n =>
      have hc : (p == c) = false := by
        have hne : p ≠ c := by
          intro h
          exact hmem (h ▸ List.mem_cons_self c cl)
        simpa using hne
      have hpre : ¬ ((p :: ps).isPrefixOf (c :: (cl ++ m))) = true := by
        simp [List.isPrefixOf, hc]
      simp only [List.cons_append, replaceGo, List.append_eq]
      rw [if_neg hpre]
      have hmem' : p ∉ cl := fun h => hmem (List.mem_cons_of_mem c h)
      have hlen : (cl ++ m).length ≤ n := by
        simp only [List.cons_append, List.length_cons] at hf
        omega
      rw [ih m n hmem' hlen]
      simp only [List.length_cons, Nat.add_sub_add_right]

/- ===== Lemmas about replaceAll ===== -/

theorem replaceAll_nil (pat : List Char) : replaceAll pat [] = [] := rfl

theorem replaceAll_append_pat (pat m : List Char) (hp : pat ≠ []) :
    replaceAll pat (pat ++ m) = replaceAll pat m := by
  have hplen : 0 < pat.length := List.length_pos.mpr hp
  unfold replaceAll
  rw [replaceGo_append_pat pat [] m ((pat ++ m).length) hp (le_refl _)]
  rw [List.nil_append]
  apply replaceGo_fuel pat [] hp
  · simp only [List.length_append]
    omega
  · exact le_refl _

theorem replaceAll_append_nomatch (p : Char) (ps l m : List Char) (h : p ∉ l) :
    replaceAll (p :: ps) (l ++ m) = l ++ replaceAll (p :: ps) m := by
  unfold replaceAll
  rw [replaceGo_append_nomatch p ps [] l m ((l ++ m).length) h (le_refl _)]
  congr 1
  apply replaceGo_fuel (p :: ps) [] (by simp)
  · simp only [List.length_append]
    omega
  · exact le_refl _

theorem replaceAll_short (pat l : List Char) (h : l.length < pat.length) :
    replaceAll pat l = l :=
  replaceGo_short pat [] l.length l h

theorem replaceAll_self (pat : List Char) (hp : pat ≠ []) :
    replaceAll pat pat = [] := by
  have := replaceAll_append_pat pat [] hp
  rw [List.append_nil] at this
  rw [this, replaceAll_nil]

/-- Skipping the three leading backticks of a plain fence while searching
for the `"```json"` pattern: as long as the fourth character is neither
`j` nor a backtick, no occurrence starts among them. -/
theorem replaceGo_fenceJson_skip_bt3 (sub : List Char) (c : Char) (m : List Char)
    (f : Nat) (hf : m.length + 4 ≤ f)
    (hcj : ('j' == c) = false) (hcb : (backtickChar == c) = false) :
    replaceGo fenceJsonPat sub f
        (backtickChar :: backtickChar :: backtickChar :: c :: m) =
      backtickChar :: backtickChar :: backtickChar ::
        replaceGo fenceJsonPat sub (f - 3) (c :: m) := by
  obtain ⟨f3, rfl⟩ : ∃ f3, f = f3 + 3 := ⟨f - 3, by omega⟩
  have hfj : fenceJsonPat =
      backtickChar :: backtickChar :: backtickChar :: 'j' :: 's' :: 'o' :: 'n' :: [] := rfl
  have h1 : ¬ (fenceJsonPat.isPrefixOf
      (backtickChar :: backtickChar :: backtickChar :: c :: m)) = true := by
    rw [hfj]
    simp [List.isPrefixOf, hcj]
  have h2 : ¬ (fenceJsonPat.isPrefixOf
      (backtickChar :: backtickChar :: c :: m)) = true := by
    rw [hfj]
    simp [List.isPrefixOf, hcb]
  have h3 : ¬ (fenceJsonPat.isPrefixOf (backtickChar :: c :: m)) = true := by
    rw [hfj]
    simp [List.isPrefixOf, hcb]
  simp only [replaceGo]
  rw [if_neg h1, if_neg h2, if_neg h3, Nat.add_sub_cancel]

/- ===== Lemmas about the strip primitive ===== -/

theorem dropWhile_append_single (p : Char → Bool) (c : Char) :
    ∀ l, List.dropWhile p (l ++ [c]) =
      if (List.dropWhile p l).isEmpty then List.dropWhile p [c]
      else List.dropWhile p l ++ [c] := by
  intro l
  induction l with
  | nil => simp
  | cons a t ih =>
    by_cases ha : p a = true
    · simp only [List.cons_append, List.dropWhile_cons, ha, if_true, ih]
    · simp only [List.cons_append, List.dropWhile_cons, ha]
      simp

theorem stripL_cons_space (c : Char) (l : List Char) (hc : pyIsSpace c = true) :
    stripL (c :: l) = stripL l := by
  unfold stripL
  rw [List.dropWhile_cons, if_pos hc]

theorem stripL_append_space (c : Char) (l : List Char) (hc : pyIsSpace c = true) :
    stripL (l ++ [c]) = stripL l := by
  unfold stripL
  rw [dropWhile_append_single]
  by_cases h : (List.dropWhile pyIsSpace l).isEmpty
  · rw [if_pos h]
    have h0 : List.dropWhile pyIsSpace l = [] := by
      cases he : List.dropWhile pyIsSpace l with
      | nil => rfl
      | cons x xs => rw [he] at h; simp at h
    have h1 : List.dropWhile pyIsSpace [c] = [] := by
      simp [List.dropWhile_cons, hc]
    rw [h0, h1]
  · rw [if_neg h]
    rw [List.reverse_append]
    have : ([c] : List Char).reverse = [c] := rfl
    rw [this]
    show ((c :: (List.dropWhile pyIsSpace l).reverse).dropWhile pyIsSpace).reverse = _
    rw [List.dropWhile_cons, if_pos hc]

theorem stripL_eq_self (a b : Char) (l : List Char) (ha : pyIsSpace a = false)
    (hb : pyIsSpace b = false) :
    stripL (a :: (l ++ [b])) = a :: (l ++ [b]) := by
  unfold stripL
  rw [List.dropWhile_cons]
  rw [if_neg (by simp [ha])]
  have hrev : (a :: (l ++ [b])).reverse = b :: (l.reverse ++ [a]) := by
    simp
  rw [hrev]
  rw [List.dropWhile_cons]
  rw [if_neg (by simp [hb])]
  simp


/- ===== The fence-cleaning scenarios ===== -/

theorem fenceJsonPat_ne_nil : fenceJsonPat ≠ [] := by decide

theorem fencePat_ne_nil : fencePat ≠ [] := by decide

theorem pyIsSpace_newline : pyIsSpace '\n' = true := by decide

theorem pyIsSpace_backtick : pyIsSpace backtickChar = false := by decide

/-- A model reply wrapped in a `"```json"` fence, with no backtick in the
payload, is cleaned to the stripped payload. -/
theorem cleanChars_fenced_json (pl : List Char) (h : backtickChar ∉ pl) :
    cleanChars ("```json\n".toList ++ pl ++ "\n```".toList) = stripL pl := by
  have e0 : "```json\n".toList = fenceJsonPat ++ ['\n'] := rfl
  have e1 : "\n```".toList = '\n' :: fencePat := rfl
  have efj : fenceJsonPat = backtickChar :: "``json".toList := rfl
  have efp : fencePat = backtickChar :: "``".toList := rfl
  have hmem : backtickChar ∉ ('\n' :: (pl ++ ['\n'])) := by
    intro hx
    rcases List.mem_cons.mp hx with h1 | hx2
    · exact absurd h1 (by decide)
    · rcases List.mem_append.mp hx2 with h2 | h3
      · exact h h2
      · exact absurd h3 (by decide)
  have hshape : "```json\n".toList ++ pl ++ "\n```".toList =
      backtickChar :: (("``json\n".toList ++ (pl ++ "\n``".toList)) ++ [backtickChar]) := by
    simp [backtickChar]
  have hstrip : stripL ("```json\n".toList ++ pl ++ "\n```".toList) =
      "```json\n".toList ++ pl ++ "\n```".toList := by
    rw [hshape]
    exact stripL_eq_self _ _ _ pyIsSpace_backtick pyIsSpace_backtick
  have hsplit : "```json\n".toList ++ pl ++ "\n```".toList =
      fenceJsonPat ++ (('\n' :: (pl ++ ['\n'])) ++ fencePat) := by
    rw [e0, e1]
    simp
  have hcond : fencePat.isPrefixOf ("```json\n".toList ++ pl ++ "\n```".toList) = true := by
    rw [show "```json\n".toList ++ pl ++ "\n```".toList =
      backtickChar :: backtickChar :: backtickChar ::
        ("json\n".toList ++ (pl ++ "\n```".toList)) from by simp [backtickChar]]
    rfl
  have hr1 : replaceAll fenceJsonPat ("```json\n".toList ++ pl ++ "\n```".toList) =
      ('\n' :: (pl ++ ['\n'])) ++ fencePat := by
    rw [hsplit, replaceAll_append_pat _ _ fenceJsonPat_ne_nil, efj,
      replaceAll_append_nomatch backtickChar _ _ _ hmem,
      replaceAll_short _ _ (by decide)]
  have hr2 : replaceAll fencePat (('\n' :: (pl ++ ['\n'])) ++ fencePat) =
      '\n' :: (pl ++ ['\n']) := by
    conv_lhs => rw [efp]
    rw [replaceAll_append_nomatch backtickChar _ _ _ hmem, ← efp,
      replaceAll_self fencePat fencePat_ne_nil, List.append_nil]
  simp only [cleanChars]
  rw [hstrip, if_pos hcond, hr1, hr2]
  rw [stripL_cons_space '\n' _ pyIsSpace_newline,
    stripL_append_space '\n' _ pyIsSpace_newline]

/-- A model reply wrapped in a plain `"```"` fence, with no backtick in
the payload, is cleaned to the stripped payload. -/
theorem cleanChars_fenced_plain (pl : List Char) (h : backtickChar ∉ pl) :
    cleanChars ("```\n".toList ++ pl ++ "\n```".toList) = stripL pl := by
  have e1 : "\n```".toList = '\n' :: fencePat := rfl
  have efp : fencePat = backtickChar :: "``".toList := rfl
  have hmem : backtickChar ∉ ('\n' :: (pl ++ ['\n'])) := by
    intro hx
    rcases List.mem_cons.mp hx with h1 | hx2
    · exact absurd h1 (by decide)
    · rcases List.mem_append.mp hx2 with h2 | h3
      · exact h h2
      · exact absurd h3 (by decide)
  have hshape : "```\n".toList ++ pl ++ "\n```".toList =
      backtickChar :: (("``\n".toList ++ (pl ++ "\n``".toList)) ++ [backtickChar]) := by
    simp [backtickChar]
  have hstrip : stripL ("```\n".toList ++ pl ++ "\n```".toList) =
      "```\n".toList ++ pl ++ "\n```".toList := by
    rw [hshape]
    exact stripL_eq_self _ _ _ pyIsSpace_backtick pyIsSpace_backtick
  have hbt3 : "```\n".toList ++ pl ++ "\n```".toList =
      backtickChar :: backtickChar :: backtickChar ::
        ('\n' :: (pl ++ ('\n' :: fencePat))) := by
    rw [e1]
    simp [backtickChar]
  have hcond : fencePat.isPrefixOf ("```\n".toList ++ pl ++ "\n```".toList) = true := by
    rw [hbt3]
    rfl
  have hr1 : replaceAll fenceJsonPat ("```\n".toList ++ pl ++ "\n```".toList) =
      "```\n".toList ++ pl ++ "\n```".toList := by
    conv_lhs => rw [hbt3]
    unfold replaceAll
    rw [replaceGo_fenceJson_skip_bt3 [] '\n' (pl ++ ('\n' :: fencePat)) _
      (by simp only [List.length_cons, List.length_append]; omega)
      (by decide) (by decide)]
    have hfuel : replaceGo fenceJsonPat []
        ((backtickChar :: backtickChar :: backtickChar ::
          ('\n' :: (pl ++ ('\n' :: fencePat)))).length - 3)
        ('\n' :: (pl ++ ('\n' :: fencePat))) =
        replaceAll fenceJsonPat ('\n' :: (pl ++ ('\n' :: fencePat))) := by
      apply replaceGo_fuel _ _ fenceJsonPat_ne_nil
      · simp only [List.length_cons, List.length_append]
        omega
      · exact le_refl _
    rw [hfuel]
    rw [show ('\n' :: (pl ++ ('\n' :: fencePat))) =
      ('\n' :: (pl ++ ['\n'])) ++ fencePat from by simp]
    rw [show fenceJsonPat = backtickChar :: "``json".toList from rfl,
      replaceAll_append_nomatch backtickChar _ _ _ hmem,
      replaceAll_short _ _ (by decide)]
    rw [hbt3]
    simp
  have hr2 : replaceAll fencePat ("```\n".toList ++ pl ++ "\n```".toList) =
      '\n' :: (pl ++ ['\n']) := by
    rw [show "```\n".toList ++ pl ++ "\n```".toList =
      fencePat ++ (('\n' :: (pl ++ ['\n'])) ++ fencePat) from by
        rw [e1]; simp [fencePat, backtickChar]]
    rw [replaceAll_append_pat _ _ fencePat_ne_nil]
    conv_lhs => rw [efp]
    rw [replaceAll_append_nomatch backtickChar _ _ _ hmem, ← efp,
      replaceAll_self fencePat fencePat_ne_nil, List.append_nil]
  simp only [cleanChars]
  rw [hstrip, if_pos hcond, hr1, hr2]
  rw [stripL_cons_space '\n' _ pyIsSpace_newline,
    stripL_append_space '\n' _ pyIsSpace_newline]

/-- A fenced model reply with a second `"```json"` marker embedded in the
middle of the payload: the cleaner deletes the embedded marker too and
splices the surrounding pieces together. -/
theorem cleanChars_fenced_json_embedded (a b : List Char)
    (ha : backtickChar ∉ a) (hb : backtickChar ∉ b) :
    cleanChars ("```json\n".toList ++ a ++ "```json".toList ++ b ++ "\n```".toList) =
      stripL (a ++ b) := by
  have e0 : "```json\n".toList = fenceJsonPat ++ ['\n'] := rfl
  have e1 : "\n```".toList = '\n' :: fencePat := rfl
  have e2 : "```json".toList = fenceJsonPat := rfl
  have efj : fenceJsonPat = backtickChar :: "``json".toList := rfl
  have efp : fencePat = backtickChar :: "``".toList := rfl
  have hmema : backtickChar ∉ ('\n' :: a) := by
    intro hx
    rcases List.mem_cons.mp hx with h1 | h2
    · exact absurd h1 (by decide)
    · exact ha h2
  have hmemb : backtickChar ∉ (b ++ ['\n']) := by
    intro hx
    rcases List.mem_append.mp hx with h1 | h2
    · exact hb h1
    · exact absurd h2 (by decide)
  have hmemab : backtickChar ∉ (('\n' :: a) ++ (b ++ ['\n'])) := by
    intro hx
    rcases List.mem_append.mp hx with h1 | h2
    · exact hmema h1
    · exact hmemb h2
  have hshape : "```json\n".toList ++ a ++ "```json".toList ++ b ++ "\n```".toList =
      backtickChar :: (("``json\n".toList ++
        (a ++ ("```json".toList ++ (b ++ "\n``".toList)))) ++ [backtickChar]) := by
    simp [backtickChar]
  have hstrip :
      stripL ("```json\n".toList ++ a ++ "```json".toList ++ b ++ "\n```".toList) =
      "```json\n".toList ++ a ++ "```json".toList ++ b ++ "\n```".toList := by
    rw [hshape]
    exact stripL_eq_self _ _ _ pyIsSpace_backtick pyIsSpace_backtick
  have hcond : fencePat.isPrefixOf
      ("```json\n".toList ++ a ++ "```json".toList ++ b ++ "\n```".toList) = true := by
    rw [show "```json\n".toList ++ a ++ "```json".toList ++ b ++ "\n```".toList =
      backtickChar :: backtickChar :: backtickChar ::
        ("json\n".toList ++ (a ++ ("```json".toList ++ (b ++ "\n```".toList))))
      from by simp [backtickChar]]
    rfl
  have hr1 : replaceAll fenceJsonPat
      ("```json\n".toList ++ a ++ "```json".toList ++ b ++ "\n```".toList) =
      (('\n' :: a) ++ (b ++ ['\n'])) ++ fencePat := by
    rw [show "```json\n".toList ++ a ++ "```json".toList ++ b ++ "\n```".toList =
      fenceJsonPat ++ (('\n' :: a) ++ (fenceJsonPat ++ ((b ++ ['\n']) ++ fencePat)))
      from by rw [e0, e1, ← e2]; simp]
    rw [replaceAll_append_pat _ _ fenceJsonPat_ne_nil]
    conv_lhs => rw [efj]
    rw [replaceAll_append_nomatch backtickChar _ _ _ hmema, ← efj,
      replaceAll_append_pat _ _ fenceJsonPat_ne_nil]
    conv_lhs => rw [efj]
    rw [replaceAll_append_nomatch backtickChar _ _ _ hmemb,
      replaceAll_short _ _ (by decide)]
    simp
  have hr2 : replaceAll fencePat ((('\n' :: a) ++ (b ++ ['\n'])) ++ fencePat) =
      ('\n' :: a) ++ (b ++ ['\n']) := by
    conv_lhs => rw [efp]
    rw [replaceAll_append_nomatch backtickChar _ _ _ hmemab, ← efp,
      replaceAll_self fencePat fencePat_ne_nil, List.append_nil]
  simp only [cleanChars]
  rw [hstrip, if_pos hcond, hr1, hr2]
  rw [show ('\n' :: a) ++ (b ++ ['\n']) = '\n' :: ((a ++ b) ++ ['\n']) from by simp]
  rw [stripL_cons_space '\n' _ pyIsSpace_newline,
    stripL_append_space '\n' _ pyIsSpace_newline]

/-- A model reply that does not start (after stripping) with three
backticks is left unchanged by the cleaner, apart from the strip. -/
theorem cleanChars_not_fenced (l : List Char)
    (h : fencePat.isPrefixOf (stripL l) = false) :
    cleanChars l = stripL l := by
  simp only [cleanChars]
  rw [if_neg (by simp [h])]

/- ===== Spec-side predicates (modelled from the spec's words) ===== -/

/-- Modelled from the spec's words for claim C5: a successful generate
response must be a JSON object with exactly two fields, `subject` and
`body`, both non-empty strings. -/
def spec_two_field_shape : JsonVal → Bool
  | .obj fs =>
    fs.length == 2 &&
      (match List.lookup "subject" fs with
       | some (.str s) => !(s == "")
       | _ => false) &&
      (match List.lookup "body" fs with
       | some (.str s) => !(s == "")
       | _ => false)
  | _ => false

/-- Modelled from the spec's words for claim C6: the parsed model reply
must be a JSON object whose `subject` and `body` fields are strings. -/
def spec_subject_body_strings : JsonVal → Bool
  | .obj fs =>
    (match List.lookup "subject" fs with | some (.str _) => true | _ => false) &&
    (match List.lookup "body" fs with | some (.str _) => true | _ => false)
  | _ => false

/- ===== Inversion lemmas for the generate route ===== -/

theorem py_contains_error_msgs (key : String) (v : JsonVal) (m : String)
    (h : py_contains key v = .error m) :
    m = "argument of type NoneType is not iterable" ∨
    m = "argument of type bool is not iterable" ∨
    m = "argument of type int is not iterable" := by
  cases v with
  | null => simp [py_contains] at h; exact Or.inl h.symm
  | bool b => simp [py_contains] at h; exact Or.inr (Or.inl h.symm)
  | num n => simp [py_contains] at h; exact Or.inr (Or.inr h.symm)
  | str s => simp [py_contains] at h
  | arr xs => simp [py_contains] at h
  | obj fs => simp [py_contains] at h

theorem shape_bad_error_msgs (v : JsonVal) (m : String)
    (h : shape_bad v = .error m) :
    m = "argument of type NoneType is not iterable" ∨
    m = "argument of type bool is not iterable" ∨
    m = "argument of type int is not iterable" := by
  unfold shape_bad at h
  cases h1 : py_contains "subject" v with
  | error m1 =>
    rw [h1] at h
    have : m1 = m := by simp at h; exact h
    exact this ▸ py_contains_error_msgs "subject" v m1 h1
  | ok b =>
    rw [h1] at h
    cases b with
    | false => simp at h
    | true =>
      cases h2 : py_contains "body" v with
      | error m2 =>
        rw [h2] at h
        have : m2 = m := by simp at h; exact h
        exact this ▸ py_contains_error_msgs "body" v m2 h2
      | ok b2 => rw [h2] at h; simp at h

theorem shape_bad_false_elim (v : JsonVal) (h : shape_bad v = .ok false) :
    py_contains "subject" v = .ok true ∧ py_contains "body" v = .ok true := by
  unfold shape_bad at h
  cases h1 : py_contains "subject" v with
  | error m => rw [h1] at h; simp at h
  | ok b =>
    rw [h1] at h
    cases b with
    | false => simp at h
    | true =>
      cases h2 : py_contains "body" v with
      | error m => rw [h2] at h; simp at h
      | ok b2 =>
        rw [h2] at h
        cases b2 with
        | false => simp at h
        | true => exact ⟨rfl, rfl⟩

theorem generate_ok_inv (k : Option String) (mc : Except String String)
    (form : GenForm) (v : JsonVal) (h : generate_email k mc form = .ok v) :
    shape_bad v = .ok false := by
  simp only [generate_email] at h
  split at h
  · simp at h
  · split at h
    · simp at h
    · split at h
      · simp at h
      · split at h
        · simp at h
        · split at h <;> first
            | (simp at h; done)
            | (rename_i v1 heq1 x2 hsb
               simp at h
               exact h ▸ hsb)

/- ===== Characterization lemmas for the dispatcher ===== -/

theorem send_result_characterized (env : Env) (tr : Nat → Nat × String)
    (now : String) (store : List HistoryRecord) (a s b : String) :
    (send_email_via_sendgrid env tr now store a s b).result = .ok () ∨
    ∃ m, (send_email_via_sendgrid env tr now store a s b).result = .error m ∧
      (m = "SENDGRID_API_KEY is missing in Render Environment Variables." ∨
       m = "MAIL_FROM is missing (must be a verified sender in SendGrid)." ∨
       m = sendgrid_fail_msg (tr 0).1 (tr 0).2 ∨
       m = sendgrid_fail_msg (tr 1).1 (tr 1).2) := by
  simp only [send_email_via_sendgrid]
  by_cases hk : truthy env.sendgrid_api_key = false
  · rw [if_pos hk]
    exact Or.inr ⟨_, rfl, Or.inl rfl⟩
  · rw [if_neg hk]
    by_cases hm : truthy env.mail_from = false
    · rw [if_pos hm]
      exact Or.inr ⟨_, rfl, Or.inr (Or.inl rfl)⟩
    · rw [if_neg hm]
      by_cases h0 : (tr 0).1 ≠ 202
      · rw [if_pos h0]
        exact Or.inr ⟨_, rfl, Or.inr (Or.inr (Or.inl rfl))⟩
      · rw [if_neg h0]
        by_cases h1 : (tr 1).1 ≠ 202
        · rw [if_pos h1]
          exact Or.inr ⟨_, rfl, Or.inr (Or.inr (Or.inr rfl))⟩
        · rw [if_neg h1]
          exact Or.inl rfl

theorem send_posts_ne_nil (env : Env) (tr : Nat → Nat × String)
    (now : String) (store : List HistoryRecord) (a s b : String)
    (hk : truthy env.sendgrid_api_key = true)
    (hm : truthy env.mail_from = true) :
    (send_email_via_sendgrid env tr now store a s b).posts ≠ [] := by
  simp only [send_email_via_sendgrid]
  rw [if_neg (by simp [hk]), if_neg (by simp [hm])]
  by_cases h0 : (tr 0).1 ≠ 202
  · rw [if_pos h0]; simp
  · rw [if_neg h0]
    by_cases h1 : (tr 1).1 ≠ 202
    · rw [if_pos h1]; simp
    · rw [if_neg h1]; simp

/- ===== Claim theorems ===== -/

/-- C1: evaluation at the failing input. With both credentials set and a
transport that accepts every POST, one confirmed send inserts TWO history
records; with a transport that accepts the first POST and rejects the
second, the request fails yet ONE new history record remains. The claim
(exactly one record per successful send, zero per failed send) is
violated in both directions by the duplicated send block of
`send_email_via_sendgrid`. -/
theorem c1_duplicate_history_records :
    (confirm_send envAll trAccept "t" [] formOk).response = .success ∧
    (confirm_send envAll trAccept "t" [] formOk).store.length = 2 ∧
    (confirm_send envAll trSecondFails "t" [] formOk).response =
      .serverError "Send failed: SendGrid failed (500): provider detail" ∧
    (confirm_send envAll trSecondFails "t" [] formOk).store.length = 1 :=
  ⟨rfl, rfl, rfl, rfl⟩

/-- C2: evaluation at the failing input: one confirmed send issues two
POSTs to the SendGrid endpoint (each with timeout 30), not exactly one as
the claim states. -/
theorem c2_duplicate_post :
    (confirm_send envAll trAccept "t" [] formOk).posts =
      [⟨sendgrid_url, 30⟩, ⟨sendgrid_url, 30⟩] :=
  rfl

/-- C3 counterexample: the recipient `"not-an-address"` contains no `@`,
yet the send is not rejected with a `ValidationError`: the transport is
invoked (twice) and the request even succeeds, creating history records.
-/
theorem c3_no_address_validation_counterexample :
    "not-an-address".toList.contains '@' = false ∧
    (confirm_send envAll trAccept "t" [] formNoAt).posts.length = 2 ∧
    (confirm_send envAll trAccept "t" [] formNoAt).response = .success :=
  ⟨by decide, rfl, rfl⟩

/-- C3 amended: only emptiness after trimming is validated. An empty
recipient is rejected with a client error before any network call and
without touching the store; any non-empty recipient, subject and body
(with credentials configured) reaches the transport regardless of the
address's shape. -/
theorem c3_only_emptiness_validated (env : Env) (transport : Nat → Nat × String)
    (now : String) (store : List HistoryRecord) (form : SendForm) :
    (pyStrip form.receiver_email = "" →
      confirm_send env transport now store form =
        ⟨.clientError "Missing required fields (receiver_email/subject/body).",
          [], store⟩) ∧
    (pyStrip form.receiver_email ≠ "" → pyStrip form.subject ≠ "" →
      pyStrip form.body ≠ "" → truthy env.sendgrid_api_key = true →
      truthy env.mail_from = true →
      (confirm_send env transport now store form).posts ≠ []) := by
  constructor
  · intro h
    simp only [confirm_send]
    rw [if_pos (Or.inl h)]
  · intro h1 h2 h3 hk hm
    simp only [confirm_send]
    rw [if_neg (by simp [h1, h2, h3])]
    have hne := send_posts_ne_nil env transport now store
      (pyStrip form.receiver_email) (pyStrip form.subject) (pyStrip form.body) hk hm
    split <;> exact hne

/-- C3 witness: instantiation of `c3_only_emptiness_validated` at
concrete inputs for both conjuncts. -/
theorem c3_only_emptiness_validated_witness :
    (pyStrip "  " = "" ∧
      confirm_send envAll trAccept "t" [] ⟨"  ", "Hi", "Hello"⟩ =
        ⟨.clientError "Missing required fields (receiver_email/subject/body).",
          [], []⟩) ∧
    (confirm_send envAll trAccept "t" [] formNoAt).posts ≠ [] :=
  ⟨⟨rfl, (c3_only_emptiness_validated envAll trAccept "t" [] ⟨"  ", "Hi", "Hello"⟩).1 rfl⟩,
    (c3_only_emptiness_validated envAll trAccept "t" [] formNoAt).2
      (by decide) (by decide) (by decide) (by decide) (by decide)⟩

/-- C4 counterexample: with the SendGrid key unset, the confirm-send
error response embeds the raised exception's text (`str(e)`) verbatim
after "Send failed: ", so raw exception text does reach the caller. -/
theorem c4_raw_exception_text_counterexample :
    (confirm_send envNoSendgrid trAccept "t" [] formOk).response =
      .serverError ("Send failed: " ++
        "SENDGRID_API_KEY is missing in Render Environment Variables.") :=
  rfl

/-- C4 amended: every failure of confirm-send or generate is a structured
JSON error response (never an HTML page), but its message embeds the
raised exception's own text: for confirm-send it is either the fixed
missing-fields text or "Send failed: " followed by the dispatcher
exception text (one of the two fixed configuration messages, or the
SendGrid status/detail message built from the provider response); for
generate it is one of the fixed texts, the model-call exception's own
text, the JSON decode error, or a TypeError text. The handlers add no
stack trace and insert no credential value, but raw exception text is not
filtered out. -/
theorem c4_error_responses_characterized (env : Env)
    (transport : Nat → Nat × String) (now : String)
    (store : List HistoryRecord) (form : SendForm)
    (k : Option String) (mc : Except String String) (gform : GenForm) :
    ((confirm_send env transport now store form).response = .success ∨
     (confirm_send env transport now store form).response =
       .clientError "Missing required fields (receiver_email/subject/body)." ∨
     ∃ m, (confirm_send env transport now store form).response =
         .serverError ("Send failed: " ++ m) ∧
       (m = "SENDGRID_API_KEY is missing in Render Environment Variables." ∨
        m = "MAIL_FROM is missing (must be a verified sender in SendGrid)." ∨
        m = sendgrid_fail_msg (transport 0).1 (transport 0).2 ∨
        m = sendgrid_fail_msg (transport 1).1 (transport 1).2)) ∧
    ((∃ v, generate_email k mc gform = .ok v) ∨
     ∃ m s, generate_email k mc gform = .err m s ∧
       (m = "GEMINI_API_KEY not set on server." ∨
        m = "Missing required fields for generation." ∨
        mc = .error m ∨
        m = json_decode_error_msg ∨
        m = "Model returned invalid JSON shape." ∨
        m = "argument of type NoneType is not iterable" ∨
        m = "argument of type bool is not iterable" ∨
        m = "argument of type int is not iterable")) := by
  constructor
  · by_cases hempty : (pyStrip form.receiver_email = "" ∨ pyStrip form.subject = "" ∨
        pyStrip form.body = "")
    · right; left
      simp only [confirm_send]
      rw [if_pos hempty]
    · rcases send_result_characterized env transport now store
        (pyStrip form.receiver_email) (pyStrip form.subject) (pyStrip form.body)
        with hok | ⟨m, hres, hm⟩
      · left
        simp only [confirm_send]
        rw [if_neg hempty, hok]
      · right; right
        refine ⟨m, ?_, hm⟩
        simp only [confirm_send]
        rw [if_neg hempty, hres]
  · simp only [generate_email]
    split
    · right; exact ⟨_, _, rfl, Or.inl rfl⟩
    · split
      · right; exact ⟨_, _, rfl, Or.inr (Or.inl rfl)⟩
      · split
        · right; exact ⟨_, _, rfl, Or.inr (Or.inr (Or.inl rfl))⟩
        · split
          · right; exact ⟨_, _, rfl, Or.inr (Or.inr (Or.inr (Or.inl rfl)))⟩
          · split
            · rename_i v x m hs
              right
              refine ⟨m, 500, rfl, ?_⟩
              rcases shape_bad_error_msgs _ m hs with e1 | e2 | e3
              · exact Or.inr (Or.inr (Or.inr (Or.inr (Or.inr (Or.inl e1)))))
              · exact Or.inr (Or.inr (Or.inr (Or.inr (Or.inr (Or.inr (Or.inl e2))))))
              · exact Or.inr (Or.inr (Or.inr (Or.inr (Or.inr (Or.inr (Or.inr e3))))))
            · right
              exact ⟨_, _, rfl, Or.inr (Or.inr (Or.inr (Or.inr (Or.inl rfl))))⟩
            · left; exact ⟨_, rfl⟩

/-- C5 counterexample: a model reply parsing to an object with an EMPTY
`subject`, plus an extra third field, is returned as a successful
generate response unchanged — the claim's "exactly two fields, both
non-empty strings" does not hold for the code's responses. -/
theorem c5_two_field_shape_counterexample :
    generate_email (some "gk")
      (.ok "\x7b\"subject\": \"\", \"body\": \"b\", \"x\": 1\x7d")
      ⟨"r", "s", "m", "t", ""⟩ =
      .ok (.obj [("subject", .str ""), ("body", .str "b"), ("x", .num 1)]) ∧
    spec_two_field_shape
      (.obj [("subject", .str ""), ("body", .str "b"), ("x", .num 1)]) = false :=
  ⟨rfl, rfl⟩

/-- C5 amended: a successful generate response is the parsed model JSON
value; the code guarantees only that it contains a `subject` and a `body`
key in the sense of Python's `in` test — extra fields, empty values and
non-string values are passed through unchanged. -/
theorem c5_success_contains_keys (k : Option String) (mc : Except String String)
    (form : GenForm) (v : JsonVal) (h : generate_email k mc form = .ok v) :
    py_contains "subject" v = .ok true ∧ py_contains "body" v = .ok true :=
  shape_bad_false_elim v (generate_ok_inv k mc form v h)

/-- C5 witness: instantiation of `c5_success_contains_keys` at a concrete
successful generation. -/
theorem c5_success_contains_keys_witness :
    generate_email (some "gk") (.ok "\x7b\"subject\": \"a\", \"body\": \"b\"\x7d")
      ⟨"r", "s", "m", "t", ""⟩ =
      .ok (.obj [("subject", .str "a"), ("body", .str "b")]) ∧
    py_contains "subject" (.obj [("subject", .str "a"), ("body", .str "b")]) = .ok true ∧
    py_contains "body" (.obj [("subject", .str "a"), ("body", .str "b")]) = .ok true := by
  refine ⟨rfl, ?_, ?_⟩
  · exact (c5_success_contains_keys (some "gk")
      (.ok "\x7b\"subject\": \"a\", \"body\": \"b\"\x7d") ⟨"r", "s", "m", "t", ""⟩
      (.obj [("subject", .str "a"), ("body", .str "b")]) rfl).1
  · exact (c5_success_contains_keys (some "gk")
      (.ok "\x7b\"subject\": \"a\", \"body\": \"b\"\x7d") ⟨"r", "s", "m", "t", ""⟩
      (.obj [("subject", .str "a"), ("body", .str "b")]) rfl).2

/-- C6 counterexample: a reply parsing to an object whose `subject` and
`body` are numbers, not strings, is returned as a SUCCESS — the claim
requires generation to fail for any value that is not an object with both
fields as strings. -/
theorem c6_nonstring_fields_counterexample :
    generate_email (some "gk") (.ok "\x7b\"subject\": 1, \"body\": 2\x7d")
      ⟨"r", "s", "m", "t", ""⟩ =
      .ok (.obj [("subject", .num 1), ("body", .num 2)]) ∧
    spec_subject_body_strings (.obj [("subject", .num 1), ("body", .num 2)]) = false :=
  ⟨rfl, rfl⟩

/-- C6 amended: for a model reply wrapped in a fenced code block (with or
without the "json" tag, backtick-free payload) the cleaner strips the
fence and parsing proceeds on the stripped payload; a reply whose cleaned
text does not parse fails with the decode error, and one that parses but
lacks a `subject` or `body` KEY fails with the invalid-shape error; a
successful response always carrries both keys (never a partial object).
Key presence, not string-typedness, is what the code checks. -/
theorem c6_fence_and_shape_handling :
    (∀ pl : List Char, backtickChar ∉ pl →
      parse_json_response (String.mk ("```json\n".toList ++ pl ++ "\n```".toList)) =
        json_loads_chars (stripL pl) ∧
      parse_json_response (String.mk ("```\n".toList ++ pl ++ "\n```".toList)) =
        json_loads_chars (stripL pl)) ∧
    (∀ (k : Option String) (form : GenForm) (text : String),
      truthy k = true →
      pyStrip form.receiver_name ≠ "" → pyStrip form.sender_name ≠ "" →
      pyStrip form.mail_body ≠ "" → pyStrip form.tone ≠ "" →
      (json_loads_chars (cleanChars text.toList) = none →
        generate_email k (.ok text) form = .err json_decode_error_msg 500) ∧
      (∀ v, json_loads_chars (cleanChars text.toList) = some v →
        shape_bad v = .ok true →
        generate_email k (.ok text) form =
          .err "Model returned invalid JSON shape." 500)) ∧
    (∀ (k : Option String) (mc : Except String String) (form : GenForm)
      (v : JsonVal), generate_email k mc form = .ok v → shape_bad v = .ok false) := by
  refine ⟨?_, ?_, ?_⟩
  · intro pl h
    constructor
    · simp only [parse_json_response]
      rw [show (String.mk ("```json\n".toList ++ pl ++ "\n```".toList)).toList =
        "```json\n".toList ++ pl ++ "\n```".toList from rfl]
      rw [cleanChars_fenced_json pl h]
    · simp only [parse_json_response]
      rw [show (String.mk ("```\n".toList ++ pl ++ "\n```".toList)).toList =
        "```\n".toList ++ pl ++ "\n```".toList from rfl]
      rw [cleanChars_fenced_plain pl h]
  · intro k form text hk h1 h2 h3 h4
    constructor
    · intro hnone
      simp only [generate_email]
      rw [if_neg (by simp [hk]), if_neg (by simp [h1, h2, h3, h4]), hnone]
    · intro v hsome hbad
      simp only [generate_email]
      rw [if_neg (by simp [hk]), if_neg (by simp [h1, h2, h3, h4]), hsome]
      simp [hbad]
  · intro k mc form v h
    exact generate_ok_inv k mc form v h

/-- C6 witness: instantiation of `c6_fence_and_shape_handling` at
concrete inputs for all three conjuncts. -/
theorem c6_fence_and_shape_handling_witness :
    (backtickChar ∉ "x".toList ∧
      parse_json_response
        (String.mk ("```json\n".toList ++ "x".toList ++ "\n```".toList)) =
        json_loads_chars (stripL "x".toList)) ∧
    generate_email (some "gk") (.ok "not json") ⟨"r", "s", "m", "t", ""⟩ =
      .err json_decode_error_msg 500 ∧
    shape_bad (.obj [("subject", .str "a"), ("body", .str "b")]) = .ok false :=
  ⟨⟨by decide, (c6_fence_and_shape_handling.1 "x".toList (by decide)).1⟩,
    (c6_fence_and_shape_handling.2.1 (some "gk") ⟨"r", "s", "m", "t", ""⟩
      "not json" (by decide) (by decide) (by decide) (by decide) (by decide)).1 rfl,
    c6_fence_and_shape_handling.2.2 (some "gk")
      (.ok "\x7b\"subject\": \"a\", \"body\": \"b\"\x7d") ⟨"r", "s", "m", "t", ""⟩
      (.obj [("subject", .str "a"), ("body", .str "b")]) rfl⟩

/-- C7: for every state of the history store, the history listing returns
all stored records (a permutation of the table) ordered by identifier
descending, and on an empty store it returns the empty sequence rather
than an error. -/
theorem c7_history_listing (store : List HistoryRecord) :
    (history_list_all store).Perm store ∧
    List.Sorted (fun a b => b.id ≤ a.id) (history_list_all store) ∧
    history_list_all [] = [] := by
  haveI ht : IsTotal HistoryRecord (fun a b => b.id ≤ a.id) :=
    ⟨fun a b => Nat.le_total b.id a.id⟩
  haveI htr : IsTrans HistoryRecord (fun a b => b.id ≤ a.id) :=
    ⟨fun a b c hab hbc => Nat.le_trans hbc hab⟩
  exact ⟨List.perm_insertionSort _ _, List.sorted_insertionSort _ _, rfl⟩

/-- C8: a confirm-send whose subject is empty after trimming yields the
client error response (the `\x7berror: ...\x7d` body with status 400) and
leaves the history store unchanged; no POST is issued. -/
theorem c8_empty_subject_rejected (env : Env) (transport : Nat → Nat × String)
    (now : String) (store : List HistoryRecord) (form : SendForm)
    (h : pyStrip form.subject = "") :
    confirm_send env transport now store form =
      ⟨.clientError "Missing required fields (receiver_email/subject/body).",
        [], store⟩ := by
  simp only [confirm_send]
  rw [if_pos (Or.inr (Or.inl h))]

/-- C8 witness: instantiation of `c8_empty_subject_rejected` at a
concrete whitespace-only subject. -/
theorem c8_empty_subject_rejected_witness :
    pyStrip "   " = "" ∧
    confirm_send envAll trAccept "t" [] ⟨"a@b.co", "   ", "Hello"⟩ =
      ⟨.clientError "Missing required fields (receiver_email/subject/body).",
        [], []⟩ :=
  ⟨rfl, c8_empty_subject_rejected envAll trAccept "t" [] ⟨"a@b.co", "   ", "Hello"⟩ rfl⟩

/-- C9 counterexample: two configurations in which exactly the same
credentials are SET — one to empty strings, one to `"x"` — receive
different health responses, so the response depends on the credential
values, not only on their presence. -/
theorem c9_health_value_counterexample :
    (Env.mk (some "") (some "") (some "")).gemini_api_key.isSome =
      (Env.mk (some "x") (some "x") (some "x")).gemini_api_key.isSome ∧
    (Env.mk (some "") (some "") (some "")).sendgrid_api_key.isSome =
      (Env.mk (some "x") (some "x") (some "x")).sendgrid_api_key.isSome ∧
    (Env.mk (some "") (some "") (some "")).mail_from.isSome =
      (Env.mk (some "x") (some "x") (some "x")).mail_from.isSome ∧
    health ⟨some "", some "", some ""⟩ ≠ health ⟨some "x", some "x", some "x"⟩ := by
  refine ⟨rfl, rfl, rfl, by decide⟩

/-- C9 amended: the health response depends only on the Python
truthiness of each credential (set to a NON-EMPTY value); two
configurations agreeing on that receive identical responses, and no
credential value appears in the response (which carries only booleans).
-/
theorem c9_health_depends_only_on_truthiness (e1 e2 : Env)
    (hg : truthy e1.gemini_api_key = truthy e2.gemini_api_key)
    (hs : truthy e1.sendgrid_api_key = truthy e2.sendgrid_api_key)
    (hm : truthy e1.mail_from = truthy e2.mail_from) :
    health e1 = health e2 := by
  simp only [health, hg, hs, hm]

/-- C9 witness: instantiation of `c9_health_depends_only_on_truthiness`
at two configurations with different non-empty values. -/
theorem c9_health_depends_only_on_truthiness_witness :
    truthy (some "a") = truthy (some "b") ∧
    health ⟨some "a", some "a", some "a"⟩ = health ⟨some "b", some "b", some "b"⟩ :=
  ⟨by decide, c9_health_depends_only_on_truthiness
    ⟨some "a", some "a", some "a"⟩ ⟨some "b", some "b", some "b"⟩
    (by decide) (by decide) (by decide)⟩

/-- C10 counterexample: a model reply that does NOT start with a fence
but carries "```" inside a JSON string value is passed to the parser
unchanged — the fence marker is NOT deleted, contradicting the claim
that every such substring is removed for any model reply. -/
theorem c10_unfenced_not_cleaned_counterexample :
    cleanChars ("\x7b\"body\": \"``` code\"\x7d".toList) =
      "\x7b\"body\": \"``` code\"\x7d".toList ∧
    listInfixB fencePat (cleanChars ("\x7b\"body\": \"``` code\"\x7d".toList)) = true :=
  ⟨rfl, rfl⟩

/-- C10 amended: only when the stripped reply STARTS with "```" does the
cleaner delete every occurrence of "```json" and then "```" anywhere in
the text — including a marker embedded in the middle of the payload,
whose surroundings get spliced together; a reply not starting with a
fence is only stripped, with any embedded markers left in place. -/
theorem c10_fence_removal_scope :
    (∀ a b : List Char, backtickChar ∉ a → backtickChar ∉ b →
      cleanChars ("```json\n".toList ++ a ++ "```json".toList ++ b ++ "\n```".toList) =
        stripL (a ++ b)) ∧
    (∀ l : List Char, fencePat.isPrefixOf (stripL l) = false →
      cleanChars l = stripL l) :=
  ⟨cleanChars_fenced_json_embedded, cleanChars_not_fenced⟩

/-- C10 witness: instantiation of `c10_fence_removal_scope` for both
conjuncts, with the embedded marker visibly deleted. -/
theorem c10_fence_removal_scope_witness :
    (backtickChar ∉ "u".toList ∧ backtickChar ∉ "v".toList ∧
      cleanChars ("```json\n".toList ++ "u".toList ++ "```json".toList ++
          "v".toList ++ "\n```".toList) =
        stripL ("u".toList ++ "v".toList)) ∧
    (fencePat.isPrefixOf (stripL "plain".toList) = false ∧
      cleanChars "plain".toList = stripL "plain".toList) :=
  ⟨⟨by decide, by decide,
      c10_fence_removal_scope.1 "u".toList "v".toList (by decide) (by decide)⟩,
    ⟨by decide, c10_fence_removal_scope.2 "plain".toList (by decide)⟩⟩
